import Mathlib

/-!
Shallow embedding of the Chirag Battery backend (src/main.py, src/schemas.py).

The persistence adapter (`database.py`: `db`, `create_document`, `get_documents`)
is part of this repository but is not under src/; following the spec (section 4.1)
it is modelled as list-backed collections: `insert` appends a record and `query`
returns up to `limit` records matching the filter in insertion (natural) order,
with the storage id stripped.  The filters handed to the adapter are exactly the
Mongo-style filters constructed in src/main.py: field equality, and
`\x7b"$regex": q, "$options": "i"\x7d` for the text query, whose semantics is
case-insensitive unanchored regular-expression search.  The regex engine is
modelled on the fragment actually exercised by the theorems below: patterns made
of ordinary characters plus the metacharacter `.` (match any one character);
all theorems that go through the regex only ever instantiate it on that fragment.

Numeric float fields (capacity_ah, price) are modelled as rationals; the claims
checked here never depend on float rounding.
-/

set_option maxRecDepth 8000

namespace ChiragBattery

/-- Decidable equality of `Except` results, so that concrete endpoint
outcomes can be settled by `decide`. -/
instance {ε α : Type} [DecidableEq ε] [DecidableEq α] :
    DecidableEq (Except ε α) := fun x y =>
  match x, y with
  | .ok a, .ok b =>
    if h : a = b then .isTrue (by rw [h])
    else .isFalse (fun hc => by cases hc; exact h rfl)
  | .error e, .error f =>
    if h : e = f then .isTrue (by rw [h])
    else .isFalse (fun hc => by cases hc; exact h rfl)
  | .ok _, .error _ => .isFalse (fun hc => by cases hc)
  | .error _, .ok _ => .isFalse (fun hc => by cases hc)

/-- src/main.py line 22: the closed brand enumeration. -/
def BRANDS : List String := ["Amaron", "Exide", "Luminous"]

/-- src/main.py line 23: the closed type enumeration. -/
def TYPES : List String := ["bike-battery", "car-battery", "inverter", "inverter-battery"]

/-- src/schemas.py `Product`: a record that passed schema validation. -/
structure Product where
  name : String
  brand : String
  type : String
  capacity_ah : Option Rat
  warranty_months : Option Int
  price : Option Rat
  description : Option String
  in_stock : Bool
deriving Repr, DecidableEq

/-- A raw product request body before validation.  `none` encodes an omitted
field (for required fields this is a validation failure; for optional fields
the schema default applies). -/
structure RawProduct where
  name : Option String
  brand : Option String
  type : Option String
  capacity_ah : Option Rat
  warranty_months : Option Int
  price : Option Rat
  description : Option String
  in_stock : Option Bool
deriving Repr, DecidableEq

/-- The offending fields of a raw product body, in schema field order,
mirroring pydantic validation of src/schemas.py lines 24-31:
`name` required (any string), `brand` a literal of `BRANDS`,
`type` a literal of `TYPES`, the numeric fields optional but >= 0. -/
def productErrors (r : RawProduct) : List String :=
  (if r.name.isNone then ["name"] else []) ++
  (match r.brand with
   | none => ["brand"]
   | some b => if b ∈ BRANDS then [] else ["brand"]) ++
  (match r.type with
   | none => ["type"]
   | some t => if t ∈ TYPES then [] else ["type"]) ++
  (match r.capacity_ah with
   | some c => if c < 0 then ["capacity_ah"] else []
   | none => []) ++
  (match r.warranty_months with
   | some w => if w < 0 then ["warranty_months"] else []
   | none => []) ++
  (match r.price with
   | some p => if p < 0 then ["price"] else []
   | none => [])

/-- Pydantic validation of a product body: rejects with the offending fields,
otherwise builds the record, applying the `in_stock = True` default. -/
def validateProduct (r : RawProduct) : Except (List String) Product :=
  match r.name, r.brand, r.type with
  | some n, some b, some t =>
    if productErrors r = [] then
      .ok ⟨n, b, t, r.capacity_ah, r.warranty_months, r.price, r.description,
           r.in_stock.getD true⟩
    else .error (productErrors r)
  | _, _, _ => .error (productErrors r)

/-- src/schemas.py `Inquiry`: a record that passed schema validation. -/
structure Inquiry where
  name : String
  phone : String
  message : Option String
  product_type : Option String
  brand : Option String
  preferred_contact : String
  city : Option String
deriving Repr, DecidableEq

/-- A raw inquiry request body before validation; `none` encodes an omitted
field. -/
structure RawInquiry where
  name : Option String
  phone : Option String
  message : Option String
  product_type : Option String
  brand : Option String
  preferred_contact : Option String
  city : Option String
deriving Repr, DecidableEq

/-- The offending fields of a raw inquiry body (src/schemas.py lines 38-44):
`name` and `phone` required, `preferred_contact` a literal of
call/whatsapp when supplied. -/
def inquiryErrors (r : RawInquiry) : List String :=
  (if r.name.isNone then ["name"] else []) ++
  (if r.phone.isNone then ["phone"] else []) ++
  (match r.preferred_contact with
   | some pc => if pc = "call" ∨ pc = "whatsapp" then [] else ["preferred_contact"]
   | none => [])

/-- Pydantic validation of an inquiry body, applying the schema defaults
`preferred_contact = "whatsapp"` and `city = "Veraval, Gir Somnath"`. -/
def validateInquiry (r : RawInquiry) : Except (List String) Inquiry :=
  match r.name, r.phone with
  | some n, some p =>
    if inquiryErrors r = [] then
      .ok ⟨n, p, r.message, r.product_type, r.brand,
           r.preferred_contact.getD "whatsapp",
           some (r.city.getD "Veraval, Gir Somnath")⟩
    else .error (inquiryErrors r)
  | _, _ => .error (inquiryErrors r)

/-! ### The `$regex` text filter

src/main.py line 82 files the text query as `\x7b"$regex": q, "$options": "i"\x7d`.
Mongo interprets `q` as a regular expression searched (unanchored) in the field,
case-insensitively under option `i`.  `regexFind` implements that semantics on
the fragment of patterns whose characters are ordinary characters or the
metacharacter `.`; `containsCI` is the spec-side definition (plain
case-insensitive substring containment) it is compared against. -/

/-- Characters that carry special meaning in a Mongo/PCRE regular expression. -/
def regexMetachars : List Char := (".*+?[]()\x7b\x7d^$|\\").toList

def isRegexMeta (c : Char) : Bool := regexMetachars.contains c

/-- One pattern character against one subject character, case-insensitively:
`.` matches anything, other characters match up to case. -/
def charMatch (pc c : Char) : Bool := pc == '.' || pc.toLower == c.toLower

/-- Does the pattern match a prefix of the subject? -/
def matchHere : List Char → List Char → Bool
  | [], _ => true
  | _ :: _, [] => false
  | pc :: ps, c :: cs => charMatch pc c && matchHere ps cs

/-- Unanchored regex search: does the pattern match at some position? -/
def regexFind (p : List Char) : List Char → Bool
  | [] => matchHere p []
  | c :: cs => matchHere p (c :: cs) || regexFind p cs

/-- Spec-side definition ("case-insensitive substring match against name"):
is the pattern, read literally, a case-insensitive prefix of the subject? -/
def startsWithCI : List Char → List Char → Bool
  | [], _ => true
  | _ :: _, [] => false
  | pc :: ps, c :: cs => (pc.toLower == c.toLower) && startsWithCI ps cs

/-- Spec-side definition: literal case-insensitive substring containment. -/
def containsCI (p : List Char) : List Char → Bool
  | [] => startsWithCI p []
  | c :: cs => startsWithCI p (c :: cs) || containsCI p cs

/-! ### Persistence adapter and the listing filter -/

/-- The filter document built by `list_products` (src/main.py lines 76-82):
optional brand equality, optional type equality, optional `$regex` on name. -/
structure ProductFilter where
  brand : Option String
  type : Option String
  nameRegex : Option String
deriving Repr, DecidableEq

/-- Whether a stored product document matches the filter, per Mongo filter
semantics: absent keys match everything, present keys must match. -/
def docMatches (f : ProductFilter) (d : Product) : Bool :=
  (match f.brand with | none => true | some b => d.brand == b) &&
  (match f.type with | none => true | some t => d.type == t) &&
  (match f.nameRegex with
   | none => true
   | some q => regexFind q.toList d.name.toList)

/-- Modelled from the spec: `get_documents` of the absent `database.py` —
"query(collectionName, filter, limit) -> up to `limit` matching records in the
natural order of the store", with the storage id stripped (section 4.1).  The
product collection is the list of inserted records in insertion order. -/
def get_documents (coll : List Product) (f : ProductFilter) (limit : Nat) :
    List Product :=
  (coll.filter (docMatches f)).take limit

/-- Python truthiness of an optional string parameter: `if brand:` takes the
branch only for a present, non-empty string. -/
def strTruthy : Option String → Option String
  | none => none
  | some s => if s = "" then none else some s

/-- Errors an endpoint can answer with: a 422 schema validation error listing
the offending fields, or an `HTTPException` with a status code. -/
inductive ApiError where
  | validation (fields : List String)
  | http (code : Nat)
deriving Repr, DecidableEq

/-- GET /api/products (src/main.py lines 70-88): 500 when the store handle is
absent, otherwise build the filter from the truthy parameters and return the
matching items plus their count. -/
def list_products (db : Option (List Product))
    (brand type q : Option String) (limit : Int) :
    Except ApiError (List Product × Nat) :=
  match db with
  | none => .error (.http 500)
  | some coll =>
    let filters : ProductFilter :=
      ⟨strTruthy brand, strTruthy type, strTruthy q⟩
    let items := get_documents coll filters limit.toNat
    .ok (items, items.length)

/-- FastAPI parameter binding for GET /api/products: an omitted `limit` query
parameter takes the declared default 50 (src/main.py line 71). -/
def list_products_params (db : Option (List Product))
    (brand type q : Option String) (limit : Option Int) :
    Except ApiError (List Product × Nat) :=
  list_products db brand type q (limit.getD 50)

/-- Outcome of a write endpoint: the product store afterwards, and the
response. -/
structure AddProductResult where
  store : Option (List Product)
  response : Except ApiError String
deriving Repr

/-- POST /api/products (src/main.py lines 91-96).  FastAPI validates the body
against the Product schema before the handler runs (422 on failure, store
untouched); the handler then answers 500 if the store handle is absent, else
inserts the record (modelled from the spec: `create_document` appends). -/
def add_product (db : Option (List Product)) (raw : RawProduct) :
    AddProductResult :=
  match validateProduct raw with
  | .error fs => ⟨db, .error (.validation fs)⟩
  | .ok p =>
    match db with
    | none => ⟨none, .error (.http 500)⟩
    | some coll => ⟨some (coll ++ [p]), .ok "Product added"⟩

/-- Outcome of the inquiry endpoint: the inquiry store afterwards, and the
response. -/
structure CreateInquiryResult where
  store : Option (List Inquiry)
  response : Except ApiError String
deriving Repr

/-- POST /api/inquiries (src/main.py lines 99-104): body validation first,
then 500 on absent store handle, else insert. -/
def create_inquiry (db : Option (List Inquiry)) (raw : RawInquiry) :
    CreateInquiryResult :=
  match validateInquiry raw with
  | .error fs => ⟨db, .error (.validation fs)⟩
  | .ok i =>
    match db with
    | none => ⟨none, .error (.http 500)⟩
    | some coll => ⟨some (coll ++ [i]), .ok "Thanks! We will contact you shortly."⟩

/-! ### Startup seeding (src/main.py lines 27-45)

The seed step talks to the raw store, which can be unreachable; `SeedStore`
models the product collection together with a reachability flag, and the two
adapter operations raise (return `.error`) exactly when the store is
unreachable (spec section 4.1: "if the store is unreachable, every operation
signals a ServiceUnavailable condition"). -/

structure SeedStore where
  product : List Product
  failing : Bool
deriving Repr, DecidableEq

/-- Modelled from the spec: `count_documents` on the product collection
(raises when the store is unreachable). -/
def count_documents (s : SeedStore) : Except String Nat :=
  if s.failing then .error "ServiceUnavailable" else .ok s.product.length

/-- Modelled from the spec: `create_document` of the absent `database.py` —
"insert(collectionName, record) -> id" appends the record (raises when the
store is unreachable). -/
def create_document (s : SeedStore) (p : Product) : Except String SeedStore :=
  if s.failing then .error "ServiceUnavailable"
  else .ok ⟨s.product ++ [p], s.failing⟩

/-- The six literal sample records of src/main.py lines 34-41. -/
def sampleProducts : List Product :=
  [⟨"Amaron Pro Rider", "Amaron", "bike-battery", some 9, some 48, some 1699,
    some "Maintenance-free bike battery", true⟩,
   ⟨"Exide Xplore", "Exide", "bike-battery", some 9, some 48, some 1599,
    some "Reliable performance for bikes", true⟩,
   ⟨"Amaron Flo 55B24L", "Amaron", "car-battery", some 45, some 48, some 5499,
    some "High cranking power", true⟩,
   ⟨"Exide Mileage 35L", "Exide", "car-battery", some 35, some 44, some 4899,
    some "Long life, low maintenance", true⟩,
   ⟨"Luminous Zelio+ 1100", "Luminous", "inverter", none, some 24, some 6999,
    some "Pure sine wave inverter", true⟩,
   ⟨"Luminous RC 18000", "Luminous", "inverter-battery", some 150, some 36,
    some 13499, some "Tubular inverter battery", true⟩]

/-- The loop of src/main.py lines 42-43: insert the samples one by one,
propagating the first store exception. -/
def insertSamples : SeedStore → List Product → Except String SeedStore
  | s, [] => .ok s
  | s, p :: ps =>
    match create_document s p with
    | .error e => .error e
    | .ok s' => insertSamples s' ps

/-- The body of the `try:` block of `seed_products` (src/main.py lines 31-43):
count the products, and when the collection is empty insert the six samples.
Any store exception escapes as `.error`. -/
def seedBody (s : SeedStore) : Except String SeedStore :=
  match count_documents s with
  | .error e => .error e
  | .ok n => if n = 0 then insertSamples s sampleProducts else .ok s

/-- `seed_products` (src/main.py lines 27-45): return immediately when the
store handle is absent; otherwise run the body and swallow any exception
(`except Exception: pass`), leaving the store as the failed body left it
(here: unchanged, since the first fallible operation already raises).
The result is `.ok` exactly when startup is not blocked. -/
def seed_products (db : Option SeedStore) : Except String (Option SeedStore) :=
  match db with
  | none => .ok none
  | some s =>
    match seedBody s with
    | .ok s' => .ok (some s')
    | .error _ => .ok (some s)

/-! ### Diagnostics endpoint (src/main.py lines 124-156) -/

/-- The state `/test` can observe: the optional store handle (with its
optional `name` attribute and its collection-name probe, which either yields
the names or raises), and whether the two environment variables are set. -/
structure DiagDb where
  name : Option String
  collections : Except String (List String)

structure DiagEnv where
  db : Option DiagDb
  database_url_set : Bool
  database_name_set : Bool

/-- The response body of GET /test. -/
structure DiagResponse where
  backend : String
  database : String
  database_url : Option String
  database_name : Option String
  connection_status : String
  collections : List String
deriving Repr, DecidableEq

/-- GET /test (src/main.py lines 124-156): start from the pessimistic
defaults, fill in the store sub-checks — the collection-name probe is guarded
by its own `try`/`except`, degrading only the `database` field — and finally
overwrite the two env sub-fields from the environment.  The function is total:
every failure state is encoded as a string in the body. -/
def test_database (env : DiagEnv) : DiagResponse :=
  let r : DiagResponse :=
    ⟨"✅ Running", "❌ Not Available", none, none, "Not Connected", []⟩
  let r :=
    match env.db with
    | some d =>
      let r : DiagResponse :=
        { r with
          database := "✅ Available"
          database_url := some "✅ Configured"
          database_name := some (d.name.getD "✅ Connected")
          connection_status := "Connected" }
      match d.collections with
      | .ok cs =>
        { r with collections := cs.take 10, database := "✅ Connected & Working" }
      | .error e =>
        { r with database := "⚠️  Connected but Error: " ++ e.take 50 }
    | none => { r with database := "⚠️  Available but not initialized" }
  { r with
    database_url := some (if env.database_url_set then "✅ Set" else "❌ Not Set")
    database_name := some (if env.database_name_set then "✅ Set" else "❌ Not Set") }

/-! ### Concrete instances used by counterexamples and witnesses -/

/-- A stored product whose name is "Exide". -/
def pExide : Product := ⟨"Exide", "Exide", "bike-battery", none, none, none, none, true⟩

/-- A product body whose name is the empty string and is otherwise valid. -/
def rawEmptyName : RawProduct :=
  ⟨some "", some "Amaron", some "bike-battery", none, none, none, none, none⟩

/-- The record `rawEmptyName` validates to. -/
def pEmptyName : Product := ⟨"", "Amaron", "bike-battery", none, none, none, none, true⟩

/-- A product body with the out-of-enumeration brand "Duracell". -/
def rawDuracell : RawProduct :=
  ⟨some "D cell", some "Duracell", some "car-battery", none, none, none, none, none⟩

/-- A fully valid product body. -/
def rawValid : RawProduct :=
  ⟨some "Amaron Quanta", some "Amaron", some "inverter-battery", some 100, some 36,
   some 9999, none, some true⟩

/-- The record `rawValid` validates to. -/
def pValid : Product :=
  ⟨"Amaron Quanta", "Amaron", "inverter-battery", some 100, some 36, some 9999, none, true⟩

/-- An inquiry body with only name and phone populated. -/
def rawInquiryNP : RawInquiry := ⟨some "A", some "9000000000", none, none, none, none, none⟩

/-- The record `rawInquiryNP` validates to. -/
def inquiryNP : Inquiry :=
  ⟨"A", "9000000000", none, none, none, "whatsapp", some "Veraval, Gir Somnath"⟩

/-- A diagnostics state whose collection-name probe raises. -/
def envProbeFail : DiagEnv := ⟨some ⟨some "db", .error "boom"⟩, true, false⟩

/-- A product body with the name field omitted. -/
def rawNoName : RawProduct :=
  ⟨none, some "Amaron", some "car-battery", none, none, none, none, none⟩

/-! ## Helper lemmas -/

theorem charMatch_no_dot {pc c : Char} (h : pc ≠ '.') :
    charMatch pc c = (pc.toLower == c.toLower) := by
  have hb : (pc == '.') = false := beq_eq_false_iff_ne.mpr h
  simp [charMatch, hb]

theorem matchHere_no_dot (p : List Char) (h : ∀ c ∈ p, c ≠ '.') :
    ∀ s, matchHere p s = startsWithCI p s := by
  induction p with
  | nil => intro s; cases s <;> rfl
  | cons pc ps ih =>
    intro s
    cases s with
    | nil => rfl
    | cons c cs =>
      have hpc : pc ≠ '.' := h pc (by simp)
      have hr := ih (fun x hx => h x (by simp [hx])) cs
      simp [matchHere, startsWithCI, charMatch_no_dot hpc, hr]

theorem regexFind_no_dot (p : List Char) (h : ∀ c ∈ p, c ≠ '.') :
    ∀ s, regexFind p s = containsCI p s := by
  intro s
  induction s with
  | nil => simp [regexFind, containsCI, matchHere_no_dot p h]
  | cons c cs ih => simp [regexFind, containsCI, matchHere_no_dot p h, ih]

theorem no_meta_no_dot {q : String} (h : ∀ c ∈ q.toList, isRegexMeta c = false) :
    ∀ c ∈ q.toList, c ≠ '.' := by
  intro c hc hdot
  have := h c hc
  rw [hdot] at this
  simp [isRegexMeta, regexMetachars] at this

theorem brand_mem_of_errors_nil {r : RawProduct} {b : String}
    (hb : r.brand = some b) (hE : productErrors r = []) : b ∈ BRANDS := by
  by_contra hB
  rw [productErrors, hb] at hE
  simp [hB] at hE

theorem type_mem_of_errors_nil {r : RawProduct} {t : String}
    (ht : r.type = some t) (hE : productErrors r = []) : t ∈ TYPES := by
  by_contra hT
  rw [productErrors, ht] at hE
  simp [hT] at hE

theorem validateProduct_ok_enum {r : RawProduct} {p : Product}
    (h : validateProduct r = .ok p) : p.brand ∈ BRANDS ∧ p.type ∈ TYPES := by
  rcases r with ⟨rn, rb, rt, rc, rwm, rp, rd, ri⟩
  cases rn with
  | none => simp [validateProduct] at h
  | some n =>
  cases rb with
  | none => simp [validateProduct] at h
  | some b =>
  cases rt with
  | none => simp [validateProduct] at h
  | some t =>
  simp only [validateProduct] at h
  split at h
  next hE =>
    injection h with h
    subst h
    exact ⟨brand_mem_of_errors_nil rfl hE, type_mem_of_errors_nil rfl hE⟩
  next => cases h

theorem brand_ne_empty {b : String} (h : b ∈ BRANDS) : b ≠ "" := by
  simp [BRANDS] at h
  rcases h with h | h | h <;> subst h <;> decide

theorem type_ne_empty {t : String} (h : t ∈ TYPES) : t ≠ "" := by
  simp [TYPES] at h
  rcases h with h | h | h | h <;> subst h <;> decide

theorem strTruthy_none : strTruthy none = none := rfl

theorem strTruthy_some_of_ne {s : String} (h : s ≠ "") :
    strTruthy (some s) = some s := by
  simp [strTruthy, h]

/-! ## Claims -/

/-- C1 (confirmed): creating a valid product and then listing with the brand
and type filters equal to the fields of the created record and a limit covering
the whole collection returns a result that includes the created record. -/
theorem c1_created_product_listed_under_its_filters
    (coll : List Product) (raw : RawProduct) (p : Product)
    (h : validateProduct raw = .ok p) :
    (add_product (some coll) raw).store = some (coll ++ [p]) ∧
    ∃ items, list_products (some (coll ++ [p])) (some p.brand) (some p.type) none
        (((coll ++ [p]).length : Int)) = .ok (items, items.length) ∧ p ∈ items := by
  have henum := validateProduct_ok_enum h
  have hbne : p.brand ≠ "" := brand_ne_empty henum.1
  have htne : p.type ≠ "" := type_ne_empty henum.2
  constructor
  · simp [add_product, h]
  · refine ⟨(coll ++ [p]).filter (docMatches ⟨some p.brand, some p.type, none⟩), ?_, ?_⟩
    · simp only [list_products, get_documents, strTruthy_none,
        strTruthy_some_of_ne hbne, strTruthy_some_of_ne htne, Int.toNat_natCast]
      rw [List.take_of_length_le (List.length_filter_le _ _)]
    · exact List.mem_filter.mpr ⟨by simp, by simp [docMatches]⟩

/-- C1 witness: instantiating the theorem on the concrete valid body
`rawValid` over the empty store. -/
theorem c1_witness_concrete_roundtrip :
    (validateProduct rawValid = .ok pValid) ∧
    ((add_product (some []) rawValid).store = some ([] ++ [pValid]) ∧
     ∃ items, list_products (some ([] ++ [pValid])) (some pValid.brand) (some pValid.type)
        none ((([] ++ [pValid]).length : Int)) = .ok (items, items.length) ∧ pValid ∈ items) :=
  ⟨by decide, c1_created_product_listed_under_its_filters [] rawValid pValid (by decide)⟩

/-- C3 (confirmed): a product body whose brand is "Duracell" is rejected by
schema validation before any store access — the response is a 422 validation
error naming "brand" among the offending fields, and the store (whatever its
state) is unchanged. -/
theorem c3_brand_outside_enum_rejected (db : Option (List Product)) (raw : RawProduct)
    (h : raw.brand = some "Duracell") :
    (add_product db raw).store = db ∧
    ∃ fs, (add_product db raw).response = .error (.validation fs) ∧ "brand" ∈ fs := by
  have hD : ¬ ("Duracell" ∈ BRANDS) := by decide
  have hmem : "brand" ∈ productErrors raw := by
    rw [productErrors, h]
    simp [hD]
  have hne : productErrors raw ≠ [] := by
    intro hE
    rw [hE] at hmem
    cases hmem
  have hv : validateProduct raw = .error (productErrors raw) := by
    rcases raw with ⟨rn, rb, rt, rc, rwm, rp, rd, ri⟩
    simp only at h
    subst h
    cases rn <;> cases rt <;> simp [validateProduct, hne]
  exact ⟨by simp [add_product, hv], productErrors raw, by simp [add_product, hv], hmem⟩

/-- C3 witness: instantiating the theorem on the concrete body `rawDuracell`
over the empty store. -/
theorem c3_witness_duracell :
    (rawDuracell.brand = some "Duracell") ∧
    ((add_product (some []) rawDuracell).store = some [] ∧
     ∃ fs, (add_product (some []) rawDuracell).response = .error (.validation fs) ∧
       "brand" ∈ fs) :=
  ⟨rfl, c3_brand_outside_enum_rejected (some []) rawDuracell rfl⟩

/-- C5 (confirmed): startup seeding never raises (every exception of the seed
body, including store unavailability, is swallowed), and when the product
collection already holds at least one record it is a no-op, so the six
samples are never duplicated. -/
theorem c5_seed_swallows_errors_and_is_noop_on_nonempty (db : Option SeedStore) :
    (∃ r, seed_products db = .ok r) ∧
    (∀ s, db = some s → s.product ≠ [] → seed_products db = .ok (some s)) := by
  constructor
  · cases db with
    | none => exact ⟨none, rfl⟩
    | some s =>
      cases hB : seedBody s with
      | ok s2 => exact ⟨some s2, by simp [seed_products, hB]⟩
      | error e => exact ⟨some s, by simp [seed_products, hB]⟩
  · rintro s rfl hne
    by_cases hf : s.failing
    · simp [seed_products, seedBody, count_documents, hf]
    · simp [seed_products, seedBody, count_documents, hf, List.length_eq_zero, hne]

/-- C5 witness: instantiating the theorem on a reachable store that already
holds one product: seeding returns normally and leaves it unchanged. -/
theorem c5_witness_nonempty_store :
    ((some (⟨[pExide], false⟩ : SeedStore)) = some (⟨[pExide], false⟩ : SeedStore)) ∧
    ((⟨[pExide], false⟩ : SeedStore).product ≠ []) ∧
    seed_products (some ⟨[pExide], false⟩) = .ok (some ⟨[pExide], false⟩) :=
  ⟨rfl, by decide,
   (c5_seed_swallows_errors_and_is_noop_on_nonempty (some ⟨[pExide], false⟩)).2
     ⟨[pExide], false⟩ rfl (by decide)⟩

/-- C6 (confirmed): a listing with limit `n` returns at most `n` records (and
its `total` is the count of the returned records), and an omitted limit
parameter behaves as the declared default 50. -/
theorem c6_limit_bounds_and_default :
    (∀ (db : Option (List Product)) (b t q : Option String) (n : Nat)
        (items : List Product) (total : Nat),
      list_products_params db b t q (some (n : Int)) = .ok (items, total) →
      items.length ≤ n ∧ total = items.length) ∧
    (∀ (db : Option (List Product)) (b t q : Option String),
      list_products_params db b t q none = list_products db b t q 50) := by
  constructor
  · intro db b t q n items total h
    cases db with
    | none => simp [list_products_params, list_products] at h
    | some coll =>
      simp only [list_products_params, Option.getD, list_products, get_documents] at h
      injection h with h
      rw [Prod.mk.injEq] at h
      obtain ⟨h1, h2⟩ := h
      subst h1
      subst h2
      refine ⟨?_, rfl⟩
      rw [Int.toNat_natCast, List.length_take]
      exact min_le_left _ _
  · intro db b t q
    rfl

/-- C6 witness: the six-sample store listed with limit 2 returns exactly two
records, and the theorem bounds their number by 2. -/
theorem c6_witness_limit_two :
    (list_products_params (some sampleProducts) none none none (some ((2 : Nat) : Int)) =
      .ok (sampleProducts.take 2, 2)) ∧
    (sampleProducts.take 2).length ≤ 2 ∧ (2 : Nat) = (sampleProducts.take 2).length := by
  have h : list_products_params (some sampleProducts) none none none (some ((2 : Nat) : Int)) =
      .ok (sampleProducts.take 2, 2) := by decide
  exact ⟨h, (c6_limit_bounds_and_default.1 (some sampleProducts) none none none 2
    (sampleProducts.take 2) 2 h).1,
    (c6_limit_bounds_and_default.1 (some sampleProducts) none none none 2
    (sampleProducts.take 2) 2 h).2⟩

/-- C8 (confirmed): when the store handle is absent, the listing endpoint and
— for bodies that pass schema validation — the two creation endpoints all
answer with HTTP 500, and no store state is changed. -/
theorem c8_absent_store_yields_500 :
    (∀ (b t q : Option String) (limit : Int),
      list_products none b t q limit = .error (.http 500)) ∧
    (∀ (raw : RawProduct) (p : Product), validateProduct raw = .ok p →
      (add_product none raw).store = none ∧
      (add_product none raw).response = .error (.http 500)) ∧
    (∀ (raw : RawInquiry) (i : Inquiry), validateInquiry raw = .ok i →
      (create_inquiry none raw).store = none ∧
      (create_inquiry none raw).response = .error (.http 500)) := by
  refine ⟨fun b t q limit => rfl, fun raw p h => ?_, fun raw i h => ?_⟩
  · constructor <;> simp [add_product, h]
  · constructor <;> simp [create_inquiry, h]

/-- C8 witness: instantiating the theorem on the concrete valid bodies
`rawValid` and `rawInquiryNP` against the absent store. -/
theorem c8_witness_valid_bodies :
    (validateProduct rawValid = .ok pValid) ∧
    (validateInquiry rawInquiryNP = .ok inquiryNP) ∧
    list_products none none none none 50 = .error (.http 500) ∧
    ((add_product none rawValid).store = none ∧
     (add_product none rawValid).response = .error (.http 500)) ∧
    ((create_inquiry none rawInquiryNP).store = none ∧
     (create_inquiry none rawInquiryNP).response = .error (.http 500)) :=
  ⟨by decide, by decide, c8_absent_store_yields_500.1 none none none 50,
   c8_absent_store_yields_500.2.1 rawValid pValid (by decide),
   c8_absent_store_yields_500.2.2 rawInquiryNP inquiryNP (by decide)⟩

/-- C9 (confirmed): the diagnostics endpoint answers normally in every store
state — handle absent, present with a working probe, or present with a
raising probe — encoding each failure as a descriptive string in the
`database` sub-field while the other sub-fields keep their independent
values. -/
theorem c9_diagnostics_always_answers (env : DiagEnv) :
    (test_database env).backend = "✅ Running" ∧
    (test_database env).database_url =
      some (if env.database_url_set then "✅ Set" else "❌ Not Set") ∧
    (test_database env).database_name =
      some (if env.database_name_set then "✅ Set" else "❌ Not Set") ∧
    (env.db = none →
      (test_database env).database = "⚠️  Available but not initialized" ∧
      (test_database env).connection_status = "Not Connected" ∧
      (test_database env).collections = []) ∧
    (∀ d cs, env.db = some d → d.collections = .ok cs →
      (test_database env).database = "✅ Connected & Working" ∧
      (test_database env).connection_status = "Connected" ∧
      (test_database env).collections = cs.take 10) ∧
    (∀ d e, env.db = some d → d.collections = .error e →
      (test_database env).database = "⚠️  Connected but Error: " ++ e.take 50 ∧
      (test_database env).connection_status = "Connected" ∧
      (test_database env).collections = []) := by
  rcases env with ⟨odb, us, ns⟩
  cases odb with
  | none =>
    refine ⟨rfl, rfl, rfl, fun _ => ⟨rfl, rfl, rfl⟩, ?_, ?_⟩
    · intro d cs h
      exact absurd h (by simp)
    · intro d e h
      exact absurd h (by simp)
  | some dd =>
    rcases dd with ⟨nm, cols⟩
    cases cols with
    | ok cs =>
      refine ⟨rfl, rfl, rfl, ?_, ?_, ?_⟩
      · intro h
        exact absurd h (by simp)
      · intro d cs2 h hc
        simp only [Option.some.injEq] at h
        subst h
        simp only [Except.ok.injEq] at hc
        subst hc
        exact ⟨rfl, rfl, rfl⟩
      · intro d e h hc
        simp only [Option.some.injEq] at h
        subst h
        simp at hc
    | error e =>
      refine ⟨rfl, rfl, rfl, ?_, ?_, ?_⟩
      · intro h
        exact absurd h (by simp)
      · intro d cs2 h hc
        simp only [Option.some.injEq] at h
        subst h
        simp at hc
      · intro d e2 h hc
        simp only [Option.some.injEq] at h
        subst h
        simp only [Except.error.injEq] at hc
        subst hc
        exact ⟨rfl, rfl, rfl⟩

/-- C9 witness: instantiating the theorem on the state whose probe raises
"boom": only the `database` sub-field degrades. -/
theorem c9_witness_probe_failure :
    (envProbeFail.db = some ⟨some "db", .error "boom"⟩) ∧
    ((test_database envProbeFail).database = "⚠️  Connected but Error: " ++ "boom".take 50 ∧
     (test_database envProbeFail).connection_status = "Connected" ∧
     (test_database envProbeFail).collections = []) :=
  ⟨rfl, (c9_diagnostics_always_answers envProbeFail).2.2.2.2.2
    ⟨some "db", .error "boom"⟩ "boom" rfl rfl⟩

/-- C2 counterexample: the text query is NOT a literal substring match.  With
the single stored product named "Exide", the query `q = "E.ide"` is returned
by the listing (the `$regex` metacharacter `.` matches the letter x), although
"E.ide" is not a case-insensitive substring of "Exide". -/
theorem c2_counterexample_dot_is_wildcard :
    list_products (some [pExide]) none none (some "E.ide") 50 = .ok ([pExide], 1) ∧
    containsCI "E.ide".toList pExide.name.toList = false :=
  ⟨by decide, by decide⟩

/-- C2 (amended): the text query `q` is handed to the store as a
case-insensitive regular expression; only for queries containing no regex
metacharacter does the listing return exactly the products whose name
contains `q` as a case-insensitive literal substring (up to the limit). -/
theorem c2_query_is_regex_substring_only_without_metachars
    (coll : List Product) (q : String) (limit : Int)
    (hq : q ≠ "") (hfrag : ∀ c ∈ q.toList, isRegexMeta c = false) :
    list_products (some coll) none none (some q) limit =
      .ok ((coll.filter (fun d => containsCI q.toList d.name.toList)).take limit.toNat,
           ((coll.filter (fun d => containsCI q.toList d.name.toList)).take limit.toNat).length) := by
  have hnd := no_meta_no_dot hfrag
  have hfe : docMatches ⟨none, none, some q⟩ =
      (fun d : Product => containsCI q.toList d.name.toList) := by
    funext d
    simp [docMatches]
    exact regexFind_no_dot _ hnd _
  simp only [list_products, get_documents, strTruthy, if_neg hq, hfe]

/-- C2 witness: instantiating the amended theorem on the metacharacter-free
query "xide" against the store holding only `pExide`. -/
theorem c2_witness_literal_query :
    ("xide" ≠ "") ∧ (∀ c ∈ "xide".toList, isRegexMeta c = false) ∧
    list_products (some [pExide]) none none (some "xide") 50 =
      .ok (([pExide].filter (fun d => containsCI "xide".toList d.name.toList)).take (50 : Int).toNat,
           (([pExide].filter (fun d => containsCI "xide".toList d.name.toList)).take (50 : Int).toNat).length) :=
  ⟨by decide, by decide,
   c2_query_is_regex_substring_only_without_metachars [pExide] "xide" 50 (by decide) (by decide)⟩

/-- C4 counterexample: schema validation accepts the empty product name — the
body `rawEmptyName` with `name = ""` validates successfully and is persisted
by the creation endpoint, contradicting the claim that it fails with a
ValidationError. -/
theorem c4_counterexample_empty_name_accepted :
    validateProduct rawEmptyName = .ok pEmptyName ∧
    (add_product (some []) rawEmptyName).store = some [pEmptyName] ∧
    (add_product (some []) rawEmptyName).response = .ok "Product added" :=
  ⟨by decide, by decide, by rfl⟩

/-- C4 (amended): the schema requires `name` to be present (a body without it
is rejected with "name" among the offending fields) but does not constrain it
to be non-empty: a creation request with `name = ""` passes validation and is
persisted. -/
theorem c4_name_required_but_may_be_empty (coll : List Product) (raw : RawProduct)
    (h : raw.name = none) :
    (∃ fs, validateProduct raw = .error fs ∧ "name" ∈ fs) ∧
    validateProduct rawEmptyName = .ok pEmptyName ∧
    (add_product (some coll) rawEmptyName).store = some (coll ++ [pEmptyName]) := by
  have hv : validateProduct rawEmptyName = .ok pEmptyName := by decide
  refine ⟨⟨productErrors raw, ?_, ?_⟩, hv, by simp [add_product, hv]⟩
  · rcases raw with ⟨rn, rb, rt, rc, rwm, rp, rd, ri⟩
    cases h
    cases rb <;> cases rt <;> simp [validateProduct]
  · simp [productErrors, h]

/-- C4 witness: instantiating the amended theorem on the concrete body
`rawNoName` (name omitted) over the empty store. -/
theorem c4_witness_no_name :
    (rawNoName.name = none) ∧
    ((∃ fs, validateProduct rawNoName = .error fs ∧ "name" ∈ fs) ∧
     validateProduct rawEmptyName = .ok pEmptyName ∧
     (add_product (some []) rawEmptyName).store = some ([] ++ [pEmptyName])) :=
  ⟨rfl, c4_name_required_but_may_be_empty [] rawNoName rfl⟩

/-- C7 (confirmed): an inquiry with only name and phone populated is accepted
and persisted with the schema defaults `preferred_contact = "whatsapp"` and
`city = "Veraval, Gir Somnath"`. -/
theorem c7_inquiry_defaults (coll : List Inquiry) (n p : String) :
    (create_inquiry (some coll) ⟨some n, some p, none, none, none, none, none⟩).store =
      some (coll ++ [⟨n, p, none, none, none, "whatsapp", some "Veraval, Gir Somnath"⟩]) ∧
    (create_inquiry (some coll) ⟨some n, some p, none, none, none, none, none⟩).response =
      .ok "Thanks! We will contact you shortly." := by
  constructor <;> simp [create_inquiry, validateInquiry, inquiryErrors]

/-- C10 (confirmed): an empty-string brand, type or text query is falsy in
Python, so it contributes no filter — the listing behaves exactly as if the
parameter were omitted. -/
theorem c10_empty_string_params_are_omitted
    (db : Option (List Product)) (b t q : Option String) (limit : Int) :
    list_products db (some "") t q limit = list_products db none t q limit ∧
    list_products db b (some "") q limit = list_products db b none q limit ∧
    list_products db b t (some "") limit = list_products db b t none limit := by
  cases db <;> simp [list_products, strTruthy]

end ChiragBattery
